import Mathlib

/-!
Shallow embedding of the bulk-import / global-fetch-interception subsystem of the
Daily-URL-Bookmark application.

Sources embedded:
* `src/src/utils/abortRegistry.ts` — the `AbortRegistry` class (register / unregister /
  startGlobalInterception / stopGlobalInterception / abortAll / getCount) and the
  module-level `trackedFetch` wrapper.
* `src/unnamed/part_004` — the `POST /api/lists/[id]/bulk-import` route handler
  (its pure data transformation over the stored URL list).
* The `beginImport` pipeline of the `UrlBulkImportExport` component, whose source file
  is not part of the corpus (only its jest tests and a workflow document are); it is
  modelled from the specification where marked.

Modelling conventions:
* A JavaScript function value stored in `window.fetch` / the registry's fields is
  modelled by `Fetch`.  The registry's wrapper closure is `Fetch.wrapperFn`; the
  string-marker test `toString().includes("__bulkImportActive") || includes
  ("globalFetchControllers")` used by the source is modelled by `Fetch.hasMarker`.
* An `AbortController` is modelled by `Controller`: `aborted` is `signal.aborted`,
  and `throwsOnAbort` models a pathological controller whose `abort()` call throws
  (the source guards every `abort()` call with `try/catch`).
* `process.env.NODE_ENV === "development"` is the `dev : Bool` parameter.
* Thrown JavaScript exceptions are modelled with `Except`.
-/

/-- Model of a JavaScript function value that can sit in `window.fetch` or in one of
the registry's fetch references. -/
inductive Fetch where
  /-- The browser's built-in fetch (also standing for `window.fetch.bind(window)`
  taken at construction, which is behaviourally the same function). -/
  | native : Fetch
  /-- The interception wrapper installed by `startGlobalInterception` (its source text
  contains the strings `__bulkImportActive` and `globalFetchControllers`). -/
  | wrapperFn : Fetch
  /-- Any other third-party function without the wrapper marker. -/
  | external (n : Nat) : Fetch
deriving Repr, DecidableEq

/-- Model of the source's marker test
`str.includes("__bulkImportActive") || str.includes("globalFetchControllers")`. -/
def Fetch.hasMarker : Fetch → Bool
  | .wrapperFn => true
  | _ => false

/-- Model of an `AbortController`.  `id` stands for object identity, `aborted` for
`controller.signal.aborted`; `throwsOnAbort` models a controller whose `abort()`
throws when invoked. -/
structure Controller where
  id : Nat
  aborted : Bool
  throwsOnAbort : Bool
deriving Repr, DecidableEq

/-- Combined state of the `AbortRegistry` singleton and the pieces of `window` it
reads and writes (`window.fetch` and the two global bulk-import flags). -/
structure SysState where
  /-- `private controllers: Set<AbortController>` (insertion order kept). -/
  controllers : List Controller
  /-- `private fetchMap: WeakMap<AbortController, Set<Promise>>`, as pairs of
  controller id and the ids of its registered promises. -/
  fetchMap : List (Nat × List Nat)
  /-- `private globalFetchControllers: Map<string, AbortController>`. -/
  globalFetchControllers : List (String × Controller)
  /-- `private isIntercepting: boolean`. -/
  isIntercepting : Bool
  /-- `private originalFetch: typeof fetch | null`. -/
  originalFetch : Option Fetch
  /-- `private permanentOriginalFetch: typeof fetch | null`. -/
  permanentOriginalFetch : Option Fetch
  /-- `private nativeFetchBackup: typeof fetch | null` (set in the field initializer
  at construction). -/
  nativeFetchBackup : Option Fetch
  /-- The current value of `window.fetch`. -/
  windowFetch : Fetch
  /-- `(window as any).__bulkImportActive`. -/
  bulkImportActive : Bool
  /-- `(window as any).__bulkImportDisableInterception`. -/
  bulkImportDisableInterception : Bool
  /-- `(window as any).__bulkImportJustCompleted`. -/
  bulkImportJustCompleted : Bool
deriving Repr, DecidableEq

/-- State produced by `new AbortRegistry()` in a fresh browser window: no tracked
controllers, no references saved yet, `nativeFetchBackup` captured from the (native)
`window.fetch` in the field initializer. -/
def SysState.init : SysState where
  controllers := []
  fetchMap := []
  globalFetchControllers := []
  isIntercepting := false
  originalFetch := none
  permanentOriginalFetch := none
  nativeFetchBackup := some .native
  windowFetch := .native
  bulkImportActive := false
  bulkImportDisableInterception := false
  bulkImportJustCompleted := false

/-- `Map.set(k, v)`: replace the entry for `k` if present, otherwise append
(JavaScript maps keep insertion order). -/
def mapSet (k : String) (v : Controller) (m : List (String × Controller)) :
    List (String × Controller) :=
  if m.any (fun kv => kv.1 = k) then
    m.map (fun kv => if kv.1 = k then (k, v) else kv)
  else
    m ++ [(k, v)]

/-- `register(controller)`: add to the `Set` (object identity = `id`; adding an
already-present object is a no-op) and seed its `fetchMap` entry. -/
def register (s : SysState) (c : Controller) : SysState :=
  let s := if s.controllers.any (fun x => x.id = c.id) then s
           else { s with controllers := s.controllers ++ [c] }
  if s.fetchMap.any (fun kv => kv.1 = c.id) then s
  else { s with fetchMap := s.fetchMap ++ [(c.id, [])] }

/-- `registerPromise(controller, promise)`. -/
def registerPromise (s : SysState) (c : Controller) (p : Nat) : SysState :=
  let s := if s.fetchMap.any (fun kv => kv.1 = c.id) then s
           else { s with fetchMap := s.fetchMap ++ [(c.id, [])] }
  { s with fetchMap := s.fetchMap.map (fun kv =>
      if kv.1 = c.id then (kv.1, if p ∈ kv.2 then kv.2 else kv.2 ++ [p]) else kv) }

/-- `unregister(controller)`: `this.controllers.delete(controller)`. -/
def unregister (s : SysState) (c : Controller) : SysState :=
  { s with controllers := s.controllers.filter (fun x => x.id ≠ c.id) }

/-- The body of one iteration of the abort loops in `abortAll`, without the
surrounding `try/catch`: `if (!controller.signal.aborted) controller.abort();`.
A pathological `abort()` throws (`Except.error`). -/
def abortStep (c : Controller) : Except Unit Controller :=
  if !c.aborted then
    if c.throwsOnAbort then .error () else .ok { c with aborted := true }
  else
    .ok c

/-- One iteration of the abort loops with its `try { ... } catch { /* ignore */ }`:
a thrown `abort()` is swallowed and the controller is left as it was. -/
def tryAbort (c : Controller) : Controller :=
  match abortStep c with
  | .ok c' => c'
  | .error _ => c

/-- `abortAll()`: run the two `forEach` abort loops over `this.controllers` and
`this.globalFetchControllers.values()`, then clear both collections.  The second
component is the post-signal state of every controller that was signalled (what
outside holders of those controllers observe). -/
def abortAll (s : SysState) : SysState × List Controller :=
  let signaled := (s.controllers ++ s.globalFetchControllers.map Prod.snd).map tryAbort
  ({ s with controllers := [], globalFetchControllers := [] }, signaled)

/-- The abort loop with exceptions made explicit: each iteration runs `abortStep`
under its own catch.  Used to express that `abortAll` can never throw outward. -/
def abortLoop : List Controller → Except Unit (List Controller)
  | [] => .ok []
  | c :: rest =>
    let c' := match abortStep c with
              | .ok x => x
              | .error _ => c
    (abortLoop rest).map (fun l => c' :: l)

/-- `abortAll()` rendered in the exception monad: both loops, then the clears. -/
def abortAllE (s : SysState) : Except Unit (SysState × List Controller) := do
  let reg ← abortLoop s.controllers
  let intc ← abortLoop (s.globalFetchControllers.map Prod.snd)
  return ({ s with controllers := [], globalFetchControllers := [] }, reg ++ intc)

/-- `forceAbortAllGlobal()`: its effect on the modelled state is `abortAll()`; the
subsequent best-effort clearing of Next.js router/fetch caches touches only objects
outside the registry and window fields modelled here, and every step of it sits
under a `try/catch`. -/
def forceAbortAllGlobal (s : SysState) : SysState × List Controller :=
  abortAll s

/-- `getCount()`: `this.controllers.size + this.globalFetchControllers.size`. -/
def getCount (s : SysState) : Nat :=
  s.controllers.length + s.globalFetchControllers.length

/-- The recursive-wrapper check at the top of `startGlobalInterception`: if the
captured `originalFetch` already carries the wrapper marker, fall back to
`permanentOriginalFetch`, else to `nativeFetchBackup`, else keep it. -/
def markerCheckFallback (s : SysState) (f : Fetch) : Fetch :=
  if f.hasMarker then
    match s.permanentOriginalFetch with
    | some p => p
    | none =>
      match s.nativeFetchBackup with
      | some nb => nb
      | none => f
  else f

/-- `startGlobalInterception()` (the `typeof window === "undefined"` guard does not
arise: the model always has a window). -/
def startGlobalInterception (s : SysState) : SysState :=
  if s.isIntercepting then s
  else
    -- this.originalFetch = window.fetch, corrected by the recursive-wrapper check
    let orig := markerCheckFallback s s.windowFetch
    let s1 := { s with originalFetch := some orig }
    -- store permanent backup of window.fetch on FIRST interception only
    let s2 := if s1.permanentOriginalFetch = none
              then { s1 with permanentOriginalFetch := some s.windowFetch }
              else s1
    -- install the wrapper and raise the flag
    { s2 with windowFetch := .wrapperFn, isIntercepting := true }

/-- `stopGlobalInterception()`. -/
def stopGlobalInterception (dev : Bool) (s : SysState) : SysState :=
  -- restoration: primary reference, else permanent backup, else nothing
  let restoreStep : SysState × Bool :=
    match s.originalFetch with
    | some f => ({ s with windowFetch := f }, true)
    | none =>
      match s.permanentOriginalFetch with
      | some p => ({ s with windowFetch := p, originalFetch := some p }, true)
      | none => (s, false)
  let s1 := restoreStep.1
  let restored := restoreStep.2
  let s2 := { s1 with isIntercepting := false }
  -- verification + nuclear fallback, gated on development build AND a restoration
  if dev && restored then
    if s2.windowFetch.hasMarker then
      match s2.nativeFetchBackup with
      | some nb => { s2 with windowFetch := nb, originalFetch := some nb }
      | none => s2
    else s2
  else s2

/-- The reference model of `stopGlobalInterception` written from the amended claim:
restore from `originalFetch` if set, else from `permanentOriginalFetch` (repairing the
primary reference too); perform no restoration when neither reference exists (the
native backup is not a restoration fallback); run the marker verification and the
nuclear restoration from `nativeFetchBackup` only in development builds, and only
when a restoration was actually performed. -/
def stopSpec (dev : Bool) (s : SysState) : SysState :=
  match s.originalFetch with
  | some f =>
    let s1 := { s with windowFetch := f, isIntercepting := false }
    if dev && f.hasMarker then
      match s.nativeFetchBackup with
      | some nb => { s1 with windowFetch := nb, originalFetch := some nb }
      | none => s1
    else s1
  | none =>
    match s.permanentOriginalFetch with
    | some p =>
      let s1 := { s with windowFetch := p, originalFetch := some p,
                         isIntercepting := false }
      if dev && p.hasMarker then
        match s.nativeFetchBackup with
        | some nb => { s1 with windowFetch := nb, originalFetch := some nb }
        | none => s1
      else s1
    | none => { s with isIntercepting := false }

/-- One invocation of the wrapper installed over `window.fetch` by
`startGlobalInterception`, up to the point where the underlying fetch call is issued.
`rid` is the freshly generated request id (`url_Date.now()_Math.random()`), `cid` the
identity of the `AbortController` the wrapper would create, `callerSignalAborted` the
`aborted` state of a caller-supplied `init.signal` (or `none` when no signal was
passed).  Returns the updated state together with either the function the call is
delegated to and the tracking controller created for it (`none` when the call is not
tracked), or `Except.error` for the thrown `TypeError` of the `self.originalFetch!`
non-null assertion when no original is saved. -/
def wrapperCall (s : SysState) (rid : String) (cid : Nat)
    (callerSignalAborted : Option Bool) :
    SysState × Except Unit (Fetch × Option Controller) :=
  -- bypass flag: hard disable of interception
  if s.bulkImportDisableInterception then
    (s, .ok ((s.originalFetch.getD (s.nativeFetchBackup.getD s.windowFetch)), none))
  -- only intercept if bulk import is active
  else if !s.bulkImportActive then
    match s.originalFetch with
    | some f => (s, .ok (f, none))
    | none => (s, .error ())
  else
    -- create and track a controller for this fetch, merging the caller's signal
    let c : Controller :=
      { id := cid, aborted := callerSignalAborted.getD false, throwsOnAbort := false }
    let s1 := { s with globalFetchControllers := mapSet rid c s.globalFetchControllers }
    match s1.originalFetch with
    | some f => (s1, .ok (f, some c))
    | none => (s1, .error ())

/-- The `.finally` cleanup of a wrapper-tracked fetch once it settles:
`self.globalFetchControllers.delete(requestId)`. -/
def wrapperSettle (s : SysState) (rid : String) : SysState :=
  { s with globalFetchControllers :=
      s.globalFetchControllers.filter (fun kv => kv.1 ≠ rid) }

/-- The part of `trackedFetch` that runs before its network call is issued: pick the
caller-supplied controller or create a fresh one (`cid` is the fresh identity),
`abortRegistry.register(controller)`, issue the fetch and
`abortRegistry.registerPromise(controller, fetchPromise)` (`pid` is the promise
identity). -/
def trackedFetchStart (s : SysState) (supplied : Option Controller)
    (cid : Nat) (pid : Nat) : SysState × Controller :=
  let c := supplied.getD { id := cid, aborted := false, throwsOnAbort := false }
  let s1 := register s c
  let s2 := registerPromise s1 c pid
  (s2, c)

/-- The rest of `trackedFetch` once the network call settles with `outcome`
(`.ok response` or `.error e` for a rejected promise): unregister on both paths,
return the response on success and rethrow the original error on failure. -/
def trackedFetchSettle (s : SysState) (c : Controller)
    (outcome : Except Nat Nat) : SysState × Except Nat Nat :=
  match outcome with
  | .ok resp => (unregister s c, .ok resp)
  | .error e => (unregister s c, .error e)

/-- `trackedFetch(input, init)` for a registry that exists, with the network outcome
supplied as a parameter. -/
def trackedFetch (s : SysState) (supplied : Option Controller)
    (cid : Nat) (pid : Nat) (outcome : Except Nat Nat) : SysState × Except Nat Nat :=
  let sc := trackedFetchStart s supplied cid pid
  trackedFetchSettle sc.1 sc.2 outcome

/-- The operations the application performs against the registry singleton and the
window flags.  (`forceRestoreNativeFetch` has no callers in the repository and is
left out of the reachable-operation alphabet; `forceAbortAllGlobal` is called from
the navigation bar and is included.) -/
inductive Op where
  | start : Op
  | stop (dev : Bool) : Op
  | abortAllOp : Op
  | forceAbortOp : Op
  | registerOp (c : Controller) : Op
  | unregisterOp (c : Controller) : Op
  | registerPromiseOp (c : Controller) (p : Nat) : Op
  | trackedFetchOp (supplied : Option Controller) (cid pid : Nat)
      (outcome : Except Nat Nat) : Op
  | fetchCallOp (rid : String) (cid : Nat) (sig : Option Bool) : Op
  | fetchSettleOp (rid : String) : Op
  | setActive (b : Bool) : Op
  | setBypass (b : Bool) : Op
  | setJustCompleted (b : Bool) : Op

/-- Apply one operation.  A page-level `window.fetch(...)` call (`fetchCallOp`) runs
the wrapper body only when the wrapper is what is currently installed; otherwise the
call goes to a non-wrapper function and leaves the registry alone. -/
def applyOp (s : SysState) : Op → SysState
  | .start => startGlobalInterception s
  | .stop dev => stopGlobalInterception dev s
  | .abortAllOp => (abortAll s).1
  | .forceAbortOp => (forceAbortAllGlobal s).1
  | .registerOp c => register s c
  | .unregisterOp c => unregister s c
  | .registerPromiseOp c p => registerPromise s c p
  | .trackedFetchOp supplied cid pid outcome => (trackedFetch s supplied cid pid outcome).1
  | .fetchCallOp rid cid sig =>
    if s.windowFetch = .wrapperFn then (wrapperCall s rid cid sig).1 else s
  | .fetchSettleOp rid => wrapperSettle s rid
  | .setActive b => { s with bulkImportActive := b }
  | .setBypass b => { s with bulkImportDisableInterception := b }
  | .setJustCompleted b => { s with bulkImportJustCompleted := b }

/-- Run a sequence of operations from a state. -/
def applySeq (s : SysState) (ops : List Op) : SysState :=
  ops.foldl applyOp s

/-- The states the registry/window pair can reach from construction. -/
def Reachable (s : SysState) : Prop :=
  ∃ ops : List Op, s = applySeq SysState.init ops

/-- Modelled from the spec: the normalized bookmark record (`ImportedRecord`,
section 3) produced by the three format-specific parsers; `urlValid` records the
outcome of the strict URL-syntax validation of the Validating stage (section 4.3),
since the component source containing the validator is not in the corpus. -/
structure ImportedRecord where
  url : String
  title : Option String
  tags : List String
  notes : Option String
  urlValid : Bool
deriving Repr, DecidableEq

/-- Modelled from the spec: `ImportOutcome = { added, skipped, errors }`
(section 6). -/
structure ImportOutcome where
  added : Nat
  skipped : Nat
  errors : List String
deriving Repr, DecidableEq

/-- Modelled from the spec: the outcome of one record of the sequential fallback
path (section 4.3): persisted, or recorded as skipped after a persistence failure. -/
inductive RecordResult where
  | persisted : RecordResult
  | skippedRec : RecordResult
deriving Repr, DecidableEq

/-- Modelled from the spec: the Cleanup/Recovery Coordinator (section 4.4), whose
component source is not in the corpus.  Runs as the final step of every import:
clear `ImportSessionFlag`, `abortAll()`, `stopInterception()`, then raise the
transient just-completed flag.  The registry operations themselves are the ones
embedded above from `abortRegistry.ts`. -/
def cleanupCoordinator (dev : Bool) (s : SysState) : SysState :=
  let s1 := { s with bulkImportActive := false }
  let s2 := (abortAll s1).1
  let s3 := stopGlobalInterception dev s2
  { s3 with bulkImportJustCompleted := true }

/-- Modelled from the spec: `beginImport` (sections 4.3, 6, 8), whose component
source (`UrlBulkImportExport`) is not in the corpus — only its jest tests
(`src/unnamed/part_002`) and a workflow document (`src/unnamed/part_001`) are.
Set the session flag, start interception, validate (invalid-URL records are
dropped and counted, not fatal), attempt the batch path, fall back to the
sequential path on batch failure (`fallbackResults` gives each record's
persistence outcome), and let `injectedError` model a thrown error anywhere in
the body; cleanup runs on every exit path. -/
def beginImport (dev : Bool) (s : SysState) (records : List ImportedRecord)
    (batchOk : Bool) (fallbackResults : List RecordResult)
    (injectedError : Option String) : SysState × ImportOutcome :=
  let s1 := { s with bulkImportActive := true }
  let s2 := startGlobalInterception s1
  let validCount := (records.filter (fun r => r.urlValid)).length
  let invalidCount := records.length - validCount
  let body : Except String ImportOutcome :=
    match injectedError with
    | some e => .error e
    | none =>
      if validCount = 0 then
        .ok { added := 0, skipped := invalidCount, errors := [] }
      else if batchOk then
        .ok { added := validCount, skipped := invalidCount, errors := [] }
      else
        let ok := (fallbackResults.filter (fun r => r = .persisted)).length
        let failed := (fallbackResults.filter (fun r => r = .skippedRec)).length
        .ok { added := ok, skipped := invalidCount + failed, errors := [] }
  match body with
  | .ok out => (cleanupCoordinator dev s2, out)
  | .error e => (cleanupCoordinator dev s2, { added := 0, skipped := 0, errors := [e] })

/-- A stored URL item of a list, as built by the bulk-import route
(`src/unnamed/part_004`).  `position` is optional because pre-existing items in the
stored list may lack it (`u.position ?? 0`, `a.position ?? 999` in the source). -/
structure UrlItem where
  id : String
  url : String
  title : String
  createdAt : String
  updatedAt : String
  isFavorite : Bool
  isPinned : Bool
  tags : List String
  notes : String
  reminder : Option String
  category : Option String
  clickCount : Nat
  position : Option Int
deriving Repr, DecidableEq

/-- One record of the request body of `POST /api/lists/[id]/bulk-import`
(`interface BulkImportUrl` in `src/unnamed/part_004`). -/
structure BulkImportUrl where
  url : String
  title : Option String
  tags : Option (List String)
  notes : Option String
  reminder : Option String
  category : Option String
  isFavorite : Option Bool
  isPinned : Option Bool
deriving Repr, DecidableEq

/-- `currentUrls.reduce((max, u) => { const pos = u.position ?? 0; return pos > max ?
pos : max; }, -1)`. -/
def maxPositionAux (acc : Int) : List UrlItem → Int
  | [] => acc
  | u :: rest =>
    let pos := u.position.getD 0
    maxPositionAux (if pos > acc then pos else acc) rest

/-- The `maxPosition` computed by the route. -/
def maxPosition (currentUrls : List UrlItem) : Int :=
  maxPositionAux (-1) currentUrls

/-- JavaScript truthiness defaulting `x || d` for an optional string: the empty
string is falsy. -/
def strOrDefault (x : Option String) (d : String) : String :=
  match x with
  | some t => if t = "" then d else t
  | none => d

/-- The item built for one input record by the route's `urls.map((urlData, index) =>
...)` callback.  `host` models `new URL(urlData.url).hostname.replace(/^www\./, "")`
and `ids i` models the `crypto.randomUUID()` drawn for the `i`-th record; `now` is
`new Date().toISOString()`. -/
def mkItem (host : String → String) (ids : Nat → String) (now : String)
    (maxPos : Int) (urlData : BulkImportUrl) (index : Nat) : UrlItem where
  id := ids index
  url := urlData.url
  title := strOrDefault urlData.title (host urlData.url)
  createdAt := now
  updatedAt := now
  isFavorite := urlData.isFavorite.getD false
  isPinned := urlData.isPinned.getD false
  tags := urlData.tags.getD []
  notes := urlData.notes.getD ""
  reminder := urlData.reminder
  category := urlData.category
  clickCount := 0
  position := some (maxPos + 1 + index)

/-- `const newUrls = urls.map((urlData, index) => ...)`, with the running index made
explicit. -/
def mkNewUrls (host : String → String) (ids : Nat → String) (now : String)
    (maxPos : Int) : List BulkImportUrl → Nat → List UrlItem
  | [], _ => []
  | u :: rest, i => mkItem host ids now maxPos u i :: mkNewUrls host ids now maxPos rest (i + 1)

/-- The sort key of the route's comparator: `a.position ?? 999`. -/
def sortKey (u : UrlItem) : Int :=
  u.position.getD 999

/-- The comparator order `(a, b) => (a.position ?? 999) - (b.position ?? 999)`:
`a` may stay before `b` exactly when the difference is non-positive. -/
def posLE (a b : UrlItem) : Prop :=
  sortKey a ≤ sortKey b

instance : DecidableRel posLE := fun a b =>
  inferInstanceAs (Decidable (sortKey a ≤ sortKey b))

instance : IsTotal UrlItem posLE := ⟨fun a b => le_total (sortKey a) (sortKey b)⟩

instance : IsTrans UrlItem posLE := ⟨fun _ _ _ h1 h2 => le_trans h1 h2⟩

/-- `const updatedUrls = [...currentUrls, ...newUrls].sort((a, b) => (a.position ??
999) - (b.position ?? 999))`.  ECMAScript requires `Array.prototype.sort` to be
stable, and a stable sort of a list under a total preorder is unique, so the stable
`List.insertionSort` denotes it exactly. -/
def updatedUrls (currentUrls newUrls : List UrlItem) : List UrlItem :=
  List.insertionSort posLE (currentUrls ++ newUrls)

/-- The data transformation of a successful `POST /api/lists/[id]/bulk-import`:
the freshly built items and the list stored by `updateList`. -/
def bulkImportCore (host : String → String) (ids : Nat → String) (now : String)
    (currentUrls : List UrlItem) (urls : List BulkImportUrl) :
    List UrlItem × List UrlItem :=
  let maxPos := maxPosition currentUrls
  let newUrls := mkNewUrls host ids now maxPos urls 0
  (newUrls, updatedUrls currentUrls newUrls)

/-- The route handler's guard structure: 401 without a user, 400 on a missing/empty
`urls` array, 404 when the list does not exist, 403 when the edit-permission check
throws; otherwise the successful data transformation. -/
def bulkImportPOST (authed found permitted : Bool) (host : String → String)
    (ids : Nat → String) (now : String) (currentUrls : List UrlItem)
    (urls : List BulkImportUrl) : Except Nat (List UrlItem × List UrlItem) :=
  if !authed then .error 401
  else if urls.isEmpty then .error 400
  else if !found then .error 404
  else if !permitted then .error 403
  else .ok (bulkImportCore host ids now currentUrls urls)

/-- Invariant maintained by every reachable state of the registry/window pair:
the native backup is the construction-time snapshot; the permanent backup, once
set, is the true original; saved references never carry the wrapper marker; before
the first activation nothing is saved and the window holds the native fetch; while
intercepting the wrapper is installed, and while not intercepting the window holds
an unwrapped function that agrees with the saved reference (if any). -/
structure RegInv (s : SysState) : Prop where
  native_eq : s.nativeFetchBackup = some .native
  perm_native : s.permanentOriginalFetch = none ∨ s.permanentOriginalFetch = some .native
  orig_unmarked : ∀ f, s.originalFetch = some f → f.hasMarker = false
  perm_none : s.permanentOriginalFetch = none →
    s.windowFetch = .native ∧ s.originalFetch = none ∧ s.isIntercepting = false
  orig_none : s.originalFetch = none → s.permanentOriginalFetch = none
  intercepting : s.isIntercepting = true →
    s.windowFetch = .wrapperFn ∧ s.originalFetch ≠ none
  not_intercepting : s.isIntercepting = false →
    s.windowFetch.hasMarker = false ∧
    (s.originalFetch = none ∨ s.originalFetch = some s.windowFetch)

theorem inv_init : RegInv SysState.init := by
  constructor <;> simp [SysState.init, Fetch.hasMarker]


theorem inv_of_fields_eq {s s' : SysState} (h : RegInv s)
    (h1 : s'.originalFetch = s.originalFetch)
    (h2 : s'.permanentOriginalFetch = s.permanentOriginalFetch)
    (h3 : s'.nativeFetchBackup = s.nativeFetchBackup)
    (h4 : s'.windowFetch = s.windowFetch)
    (h5 : s'.isIntercepting = s.isIntercepting) : RegInv s' := by
  constructor <;> simp only [h1, h2, h3, h4, h5]
  · exact h.native_eq
  · exact h.perm_native
  · exact h.orig_unmarked
  · exact h.perm_none
  · exact h.orig_none
  · exact h.intercepting
  · exact h.not_intercepting

/-- Explicit form of `startGlobalInterception` on a non-intercepting state whose
current `window.fetch` does not carry the wrapper marker. -/
theorem start_eq_of_not_intercepting {s : SysState}
    (hI : s.isIntercepting = false) (hw : s.windowFetch.hasMarker = false) :
    startGlobalInterception s =
      { s with originalFetch := some s.windowFetch,
               permanentOriginalFetch :=
                 if s.permanentOriginalFetch = none then some s.windowFetch
                 else s.permanentOriginalFetch,
               windowFetch := .wrapperFn,
               isIntercepting := true } := by
  by_cases hp : s.permanentOriginalFetch = none <;>
    simp [startGlobalInterception, hI, markerCheckFallback, hw, hp]

/-- Explicit form of `stopGlobalInterception` when a primary reference exists and is
unwrapped: restoration from the primary reference, no nuclear step. -/
theorem stop_eq_of_some {s : SysState} {f : Fetch} (dev : Bool)
    (horig : s.originalFetch = some f) (hf : f.hasMarker = false) :
    stopGlobalInterception dev s =
      { s with windowFetch := f, isIntercepting := false } := by
  cases dev <;> simp [stopGlobalInterception, horig, hf]

/-- Explicit form of `stopGlobalInterception` when neither reference exists: only the
flag is lowered. -/
theorem stop_eq_of_none {s : SysState} (dev : Bool)
    (horig : s.originalFetch = none) (hp : s.permanentOriginalFetch = none) :
    stopGlobalInterception dev s = { s with isIntercepting := false } := by
  cases dev <;> simp [stopGlobalInterception, horig, hp]

theorem inv_start {s : SysState} (h : RegInv s) : RegInv (startGlobalInterception s) := by
  by_cases hI : s.isIntercepting
  · simpa [startGlobalInterception, hI] using h
  · have hI' : s.isIntercepting = false := by simpa using hI
    obtain ⟨hw, _⟩ := h.not_intercepting hI'
    rw [start_eq_of_not_intercepting hI' hw]
    constructor
    · exact h.native_eq
    · by_cases hp : s.permanentOriginalFetch = none
      · right
        obtain ⟨hwin, _, _⟩ := h.perm_none hp
        simp [hp, hwin]
      · rcases h.perm_native with hp' | hp'
        · exact absurd hp' hp
        · right; simp [hp, hp']
    · intro f hf
      simp only [Option.some.injEq] at hf
      exact hf ▸ hw
    · intro hcontra
      by_cases hp : s.permanentOriginalFetch = none <;> simp [hp] at hcontra
    · intro hcontra
      simp at hcontra
    · intro _
      simp
    · intro hcontra
      simp at hcontra

theorem inv_stop {s : SysState} (dev : Bool) (h : RegInv s) :
    RegInv (stopGlobalInterception dev s) := by
  cases horig : s.originalFetch with
  | some f =>
    have hf : f.hasMarker = false := h.orig_unmarked f horig
    rw [stop_eq_of_some dev horig hf]
    constructor
    · exact h.native_eq
    · exact h.perm_native
    · exact h.orig_unmarked
    · intro hp
      exact absurd (h.perm_none hp).2.1 (by simp [horig])
    · intro h0
      simp only at h0
      exact absurd horig (by simp [h0])
    · intro hcontra
      simp at hcontra
    · intro _
      exact ⟨hf, Or.inr (by simp [horig])⟩
  | none =>
    have hp : s.permanentOriginalFetch = none := h.orig_none horig
    obtain ⟨hwin, _, _⟩ := h.perm_none hp
    rw [stop_eq_of_none dev horig hp]
    constructor
    · exact h.native_eq
    · exact h.perm_native
    · exact h.orig_unmarked
    · intro _
      exact ⟨hwin, horig, rfl⟩
    · intro _
      exact hp
    · intro hcontra
      simp at hcontra
    · intro _
      exact ⟨by simp [hwin, Fetch.hasMarker], Or.inl horig⟩


theorem register_fields (s : SysState) (c : Controller) :
    (register s c).originalFetch = s.originalFetch ∧
    (register s c).permanentOriginalFetch = s.permanentOriginalFetch ∧
    (register s c).nativeFetchBackup = s.nativeFetchBackup ∧
    (register s c).windowFetch = s.windowFetch ∧
    (register s c).isIntercepting = s.isIntercepting := by
  simp only [register]
  split <;> split <;> simp

theorem registerPromise_fields (s : SysState) (c : Controller) (p : Nat) :
    (registerPromise s c p).originalFetch = s.originalFetch ∧
    (registerPromise s c p).permanentOriginalFetch = s.permanentOriginalFetch ∧
    (registerPromise s c p).nativeFetchBackup = s.nativeFetchBackup ∧
    (registerPromise s c p).windowFetch = s.windowFetch ∧
    (registerPromise s c p).isIntercepting = s.isIntercepting := by
  simp only [registerPromise]
  split <;> simp

theorem wrapperCall_fields (s : SysState) (rid : String) (cid : Nat)
    (sig : Option Bool) :
    (wrapperCall s rid cid sig).1.originalFetch = s.originalFetch ∧
    (wrapperCall s rid cid sig).1.permanentOriginalFetch = s.permanentOriginalFetch ∧
    (wrapperCall s rid cid sig).1.nativeFetchBackup = s.nativeFetchBackup ∧
    (wrapperCall s rid cid sig).1.windowFetch = s.windowFetch ∧
    (wrapperCall s rid cid sig).1.isIntercepting = s.isIntercepting := by
  simp only [wrapperCall]
  split
  · simp
  · split
    · split <;> simp
    · split <;> simp

theorem trackedFetchStart_fields (s : SysState) (supplied : Option Controller)
    (cid pid : Nat) :
    (trackedFetchStart s supplied cid pid).1.originalFetch = s.originalFetch ∧
    (trackedFetchStart s supplied cid pid).1.permanentOriginalFetch = s.permanentOriginalFetch ∧
    (trackedFetchStart s supplied cid pid).1.nativeFetchBackup = s.nativeFetchBackup ∧
    (trackedFetchStart s supplied cid pid).1.windowFetch = s.windowFetch ∧
    (trackedFetchStart s supplied cid pid).1.isIntercepting = s.isIntercepting := by
  obtain ⟨f1, f2, f3, f4, f5⟩ :=
    register_fields s (supplied.getD { id := cid, aborted := false, throwsOnAbort := false })
  obtain ⟨g1, g2, g3, g4, g5⟩ :=
    registerPromise_fields
      (register s (supplied.getD { id := cid, aborted := false, throwsOnAbort := false }))
      (supplied.getD { id := cid, aborted := false, throwsOnAbort := false }) pid
  simp only [trackedFetchStart]
  exact ⟨g1.trans f1, g2.trans f2, g3.trans f3, g4.trans f4, g5.trans f5⟩

theorem trackedFetch_fields (s : SysState) (supplied : Option Controller)
    (cid pid : Nat) (outcome : Except Nat Nat) :
    (trackedFetch s supplied cid pid outcome).1.originalFetch = s.originalFetch ∧
    (trackedFetch s supplied cid pid outcome).1.permanentOriginalFetch = s.permanentOriginalFetch ∧
    (trackedFetch s supplied cid pid outcome).1.nativeFetchBackup = s.nativeFetchBackup ∧
    (trackedFetch s supplied cid pid outcome).1.windowFetch = s.windowFetch ∧
    (trackedFetch s supplied cid pid outcome).1.isIntercepting = s.isIntercepting := by
  obtain ⟨f1, f2, f3, f4, f5⟩ := trackedFetchStart_fields s supplied cid pid
  simp only [trackedFetch, trackedFetchSettle]
  cases outcome <;> exact ⟨f1, f2, f3, f4, f5⟩

theorem inv_applyOp {s : SysState} (h : RegInv s) (op : Op) : RegInv (applyOp s op) := by
  cases op with
  | start => exact inv_start h
  | stop dev => exact inv_stop dev h
  | abortAllOp => exact inv_of_fields_eq h rfl rfl rfl rfl rfl
  | forceAbortOp => exact inv_of_fields_eq h rfl rfl rfl rfl rfl
  | registerOp c =>
    obtain ⟨h1, h2, h3, h4, h5⟩ := register_fields s c
    exact inv_of_fields_eq h h1 h2 h3 h4 h5
  | unregisterOp c => exact inv_of_fields_eq h rfl rfl rfl rfl rfl
  | registerPromiseOp c p =>
    obtain ⟨h1, h2, h3, h4, h5⟩ := registerPromise_fields s c p
    exact inv_of_fields_eq h h1 h2 h3 h4 h5
  | trackedFetchOp supplied cid pid outcome =>
    obtain ⟨h1, h2, h3, h4, h5⟩ := trackedFetch_fields s supplied cid pid outcome
    exact inv_of_fields_eq h h1 h2 h3 h4 h5
  | fetchCallOp rid cid sig =>
    show RegInv (if s.windowFetch = .wrapperFn then (wrapperCall s rid cid sig).1 else s)
    split
    · obtain ⟨h1, h2, h3, h4, h5⟩ := wrapperCall_fields s rid cid sig
      exact inv_of_fields_eq h h1 h2 h3 h4 h5
    · exact h
  | fetchSettleOp rid => exact inv_of_fields_eq h rfl rfl rfl rfl rfl
  | setActive b => exact inv_of_fields_eq h rfl rfl rfl rfl rfl
  | setBypass b => exact inv_of_fields_eq h rfl rfl rfl rfl rfl
  | setJustCompleted b => exact inv_of_fields_eq h rfl rfl rfl rfl rfl

theorem inv_applySeq {s : SysState} (h : RegInv s) (ops : List Op) :
    RegInv (applySeq s ops) := by
  induction ops generalizing s with
  | nil => exact h
  | cons op rest ih => exact ih (inv_applyOp h op)

theorem inv_reachable (ops : List Op) : RegInv (applySeq SysState.init ops) :=
  inv_applySeq inv_init ops

theorem start_of_intercepting {s : SysState} (h : s.isIntercepting = true) :
    startGlobalInterception s = s := by
  simp [startGlobalInterception, h]

theorem start_isIntercepting (s : SysState) :
    (startGlobalInterception s).isIntercepting = true := by
  by_cases hI : s.isIntercepting <;> simp [startGlobalInterception, hI]

theorem start_start (s : SysState) :
    startGlobalInterception (startGlobalInterception s) = startGlobalInterception s :=
  start_of_intercepting (start_isIntercepting s)

theorem start_windowFetch_of_not_intercepting {s : SysState}
    (hI : s.isIntercepting = false) :
    (startGlobalInterception s).windowFetch = .wrapperFn := by
  simp [startGlobalInterception, hI]

/-- C2: at most one wrapper layer ever exists around the global fetch primitive:
`startGlobalInterception` on an already-intercepting state is a no-op, two
consecutive calls without an intervening stop are the same as one, and after a
`startGlobalInterception` call on any reachable state the network primitive is
wrapped exactly once — `window.fetch` is the (marker-carrying) wrapper and the
saved original it delegates to is an unwrapped function, never another wrapper. -/
theorem C2_single_wrapper_layer (ops : List Op) (s' : SysState) :
    (s'.isIntercepting = true → startGlobalInterception s' = s') ∧
    startGlobalInterception (startGlobalInterception (applySeq SysState.init ops)) =
      startGlobalInterception (applySeq SysState.init ops) ∧
    (startGlobalInterception (applySeq SysState.init ops)).windowFetch = .wrapperFn ∧
    ∃ f, (startGlobalInterception (applySeq SysState.init ops)).originalFetch = some f ∧
      f.hasMarker = false := by
  have hinv : RegInv (applySeq SysState.init ops) := inv_reachable ops
  set s := applySeq SysState.init ops with hs
  refine ⟨fun h => start_of_intercepting h, start_start s, ?_, ?_⟩
  · by_cases hI : s.isIntercepting
    · rw [start_of_intercepting hI]
      exact (hinv.intercepting hI).1
    · exact start_windowFetch_of_not_intercepting (by simpa using hI)
  · by_cases hI : s.isIntercepting
    · rw [start_of_intercepting hI]
      obtain ⟨_, hne⟩ := hinv.intercepting hI
      cases horig : s.originalFetch with
      | none => exact absurd horig hne
      | some f => exact ⟨f, rfl, hinv.orig_unmarked f horig⟩
    · have hI' : s.isIntercepting = false := by simpa using hI
      obtain ⟨hw, _⟩ := hinv.not_intercepting hI'
      rw [start_eq_of_not_intercepting hI' hw]
      exact ⟨s.windowFetch, rfl, hw⟩

/-- Witness for C2 at a concrete input: after one activation the state is
intercepting, and a second activation changes nothing. -/
theorem C2_witness :
    (startGlobalInterception SysState.init).isIntercepting = true ∧
    startGlobalInterception (startGlobalInterception SysState.init) =
      startGlobalInterception SysState.init :=
  ⟨by decide,
   (C2_single_wrapper_layer [] (startGlobalInterception SysState.init)).1 (by decide)⟩

/-- C8: on every reachable state in which interception is not active,
`stopGlobalInterception` is a no-op: the global fetch primitive and all registry
state are left unchanged, in development and production builds alike. -/
theorem C8_stop_idempotent_noop (ops : List Op) (dev : Bool)
    (h : (applySeq SysState.init ops).isIntercepting = false) :
    stopGlobalInterception dev (applySeq SysState.init ops) =
      applySeq SysState.init ops := by
  have hinv : RegInv (applySeq SysState.init ops) := inv_reachable ops
  set s := applySeq SysState.init ops with hs
  cases horig : s.originalFetch with
  | some f =>
    have hwf : f = s.windowFetch := by
      rcases (hinv.not_intercepting h).2 with h0 | h0
      · exact absurd horig (by simp [h0])
      · rw [horig] at h0
        exact Option.some.inj h0
    have hf : f.hasMarker = false := hinv.orig_unmarked f horig
    rw [stop_eq_of_some dev horig hf, hwf, ← h]
  | none =>
    have hp : s.permanentOriginalFetch = none := hinv.orig_none horig
    rw [stop_eq_of_none dev horig hp, ← h]

/-- Witness for C8 at a concrete input: after one start/stop cycle the state is not
intercepting, and a further `stopGlobalInterception` leaves it unchanged. -/
theorem C8_witness :
    (applySeq SysState.init [Op.start, Op.stop false]).isIntercepting = false ∧
    stopGlobalInterception true (applySeq SysState.init [Op.start, Op.stop false]) =
      applySeq SysState.init [Op.start, Op.stop false] :=
  ⟨by decide, C8_stop_idempotent_noop [Op.start, Op.stop false] true (by decide)⟩

theorem start_backups (s : SysState) :
    (startGlobalInterception s).nativeFetchBackup = s.nativeFetchBackup ∧
    ∀ f, s.permanentOriginalFetch = some f →
      (startGlobalInterception s).permanentOriginalFetch = some f := by
  by_cases hI : s.isIntercepting
  · simp [startGlobalInterception, hI]
  · constructor
    · simp [startGlobalInterception, hI]
      split <;> rfl
    · intro f hf
      simp [startGlobalInterception, hI, hf]

theorem stop_backups (dev : Bool) (s : SysState) :
    (stopGlobalInterception dev s).nativeFetchBackup = s.nativeFetchBackup ∧
    (stopGlobalInterception dev s).permanentOriginalFetch = s.permanentOriginalFetch := by
  rcases horig : s.originalFetch with _ | f
  · rcases hp : s.permanentOriginalFetch with _ | p
    · simp [stopGlobalInterception, horig, hp]
    · cases dev <;> cases hm : p.hasMarker <;>
        rcases hnb : s.nativeFetchBackup with _ | nb <;>
        simp [stopGlobalInterception, horig, hp, hm, hnb]
  · cases dev <;> cases hm : f.hasMarker <;>
      rcases hnb : s.nativeFetchBackup with _ | nb <;>
      simp [stopGlobalInterception, horig, hm, hnb]

theorem applyOp_backups (s : SysState) (op : Op) :
    (applyOp s op).nativeFetchBackup = s.nativeFetchBackup ∧
    ∀ f, s.permanentOriginalFetch = some f →
      (applyOp s op).permanentOriginalFetch = some f := by
  cases op with
  | start => exact start_backups s
  | stop dev =>
    obtain ⟨h1, h2⟩ := stop_backups dev s
    exact ⟨h1, fun f hf => h2.trans hf⟩
  | abortAllOp => exact ⟨rfl, fun f hf => hf⟩
  | forceAbortOp => exact ⟨rfl, fun f hf => hf⟩
  | registerOp c =>
    obtain ⟨_, h2, h3, _, _⟩ := register_fields s c
    exact ⟨h3, fun f hf => h2.trans hf⟩
  | unregisterOp c => exact ⟨rfl, fun f hf => hf⟩
  | registerPromiseOp c p =>
    obtain ⟨_, h2, h3, _, _⟩ := registerPromise_fields s c p
    exact ⟨h3, fun f hf => h2.trans hf⟩
  | trackedFetchOp supplied cid pid outcome =>
    obtain ⟨_, h2, h3, _, _⟩ := trackedFetch_fields s supplied cid pid outcome
    exact ⟨h3, fun f hf => h2.trans hf⟩
  | fetchCallOp rid cid sig =>
    show _ ∧ _
    by_cases hw : s.windowFetch = .wrapperFn
    · obtain ⟨_, h2, h3, _, _⟩ := wrapperCall_fields s rid cid sig
      constructor
      · show (if s.windowFetch = .wrapperFn then (wrapperCall s rid cid sig).1 else s).nativeFetchBackup = _
        rw [if_pos hw]
        exact h3
      · intro f hf
        show (if s.windowFetch = .wrapperFn then (wrapperCall s rid cid sig).1 else s).permanentOriginalFetch = _
        rw [if_pos hw]
        exact h2.trans hf
    · constructor
      · show (if s.windowFetch = .wrapperFn then (wrapperCall s rid cid sig).1 else s).nativeFetchBackup = _
        rw [if_neg hw]
      · intro f hf
        show (if s.windowFetch = .wrapperFn then (wrapperCall s rid cid sig).1 else s).permanentOriginalFetch = _
        rw [if_neg hw]
        exact hf
  | fetchSettleOp rid => exact ⟨rfl, fun f hf => hf⟩
  | setActive b => exact ⟨rfl, fun f hf => hf⟩
  | setBypass b => exact ⟨rfl, fun f hf => hf⟩
  | setJustCompleted b => exact ⟨rfl, fun f hf => hf⟩

theorem applySeq_backups (s : SysState) (ops : List Op) :
    (applySeq s ops).nativeFetchBackup = s.nativeFetchBackup ∧
    ∀ f, s.permanentOriginalFetch = some f →
      (applySeq s ops).permanentOriginalFetch = some f := by
  induction ops generalizing s with
  | nil => exact ⟨rfl, fun f hf => hf⟩
  | cons op rest ih =>
    obtain ⟨h1, h2⟩ := applyOp_backups s op
    obtain ⟨g1, g2⟩ := ih (applyOp s op)
    exact ⟨g1.trans h1, fun f hf => g2 f (h2 f hf)⟩

/-- C5: the two backups are write-once.  `nativeFetchBackup` is set only at
construction and never modified by any operation sequence; `permanentOriginalFetch`
is `none` until the first activation of interception, is assigned by it (from the
true, unwrapped original — in every reachable state it is either unset or the
native fetch, never a wrapper), and once set is never overwritten by any later
sequence of operations. -/
theorem C5_backups_write_once (ops more : List Op) (f : Fetch) :
    (applySeq SysState.init ops).nativeFetchBackup = SysState.init.nativeFetchBackup ∧
    ((applySeq SysState.init ops).permanentOriginalFetch = none ∨
      (applySeq SysState.init ops).permanentOriginalFetch = some .native) ∧
    (startGlobalInterception (applySeq SysState.init ops)).permanentOriginalFetch ≠ none ∧
    ((applySeq SysState.init ops).permanentOriginalFetch = some f →
      (applySeq (applySeq SysState.init ops) more).permanentOriginalFetch = some f) := by
  have hinv : RegInv (applySeq SysState.init ops) := inv_reachable ops
  refine ⟨(applySeq_backups SysState.init ops).1, hinv.perm_native, ?_,
    fun hf => (applySeq_backups (applySeq SysState.init ops) more).2 f hf⟩
  by_cases hI : (applySeq SysState.init ops).isIntercepting
  · rw [start_of_intercepting hI]
    intro hp
    exact absurd (hinv.perm_none hp).2.2 (by simp [hI])
  · have hI' : (applySeq SysState.init ops).isIntercepting = false := by simpa using hI
    obtain ⟨hw, _⟩ := hinv.not_intercepting hI'
    rw [start_eq_of_not_intercepting hI' hw]
    by_cases hp : (applySeq SysState.init ops).permanentOriginalFetch = none <;> simp [hp]

/-- Witness for C5 at a concrete input: the permanent backup set by the first
activation survives a later stop. -/
theorem C5_witness :
    (applySeq SysState.init [Op.start]).permanentOriginalFetch = some .native ∧
    (applySeq (applySeq SysState.init [Op.start]) [Op.stop true]).permanentOriginalFetch =
      some .native :=
  ⟨by decide,
   (C5_backups_write_once [Op.start] [Op.stop true] .native).2.2.2 (by decide)⟩

/-- C3 counterexample: the claim — that `stopGlobalInterception` restores along the
chain `savedOriginalFetch`, then `permanentOriginalBackup`, then `nativeBackup`, and
verifies and force-restores on every call, "not only under some build
configuration" — is false.  First state: both saved references are `null` while
`window.fetch` is the wrapper and the native backup is available; the claimed chain
would restore the native backup, but the code performs no restoration at all and the
primitive stays wrapped in production and development builds alike.  Second state: a
corrupted saved reference that is itself the wrapper; the claimed post-restoration
verification would force-restore the native backup on every call, but the code does
so only in the development build — in production the primitive stays wrapped, so the
behaviour does depend on the build configuration. -/
theorem C3_counterexample :
    (stopGlobalInterception false
        { SysState.init with windowFetch := .wrapperFn }).windowFetch.hasMarker = true ∧
    (stopGlobalInterception true
        { SysState.init with windowFetch := .wrapperFn }).windowFetch.hasMarker = true ∧
    (stopGlobalInterception false
        { SysState.init with windowFetch := .wrapperFn,
                             originalFetch := some .wrapperFn,
                             permanentOriginalFetch := some .wrapperFn
        }).windowFetch.hasMarker = true ∧
    (stopGlobalInterception true
        { SysState.init with windowFetch := .wrapperFn,
                             originalFetch := some .wrapperFn,
                             permanentOriginalFetch := some .wrapperFn
        }).windowFetch.hasMarker = false := by
  decide

/-- C3 (amended): `stopGlobalInterception` restores the global fetch from
`originalFetch` when set, else from `permanentOriginalFetch` (also repairing the
primary reference); when neither reference exists it performs no restoration —
`nativeFetchBackup` is not a third restoration fallback — and it lowers
`isIntercepting` in every case.  The post-restoration marker verification, with its
forced restore from `nativeFetchBackup`, runs only in development builds and only
when a restoration was actually performed.  `stopSpec` states exactly this
behaviour, and the code agrees with it on every state and build configuration. -/
theorem C3_stop_restoration_chain (dev : Bool) (s : SysState) :
    stopGlobalInterception dev s = stopSpec dev s := by
  rcases horig : s.originalFetch with _ | f
  · rcases hp : s.permanentOriginalFetch with _ | p
    · simp [stopGlobalInterception, stopSpec, horig, hp]
    · cases dev <;> cases hm : p.hasMarker <;>
        rcases hnb : s.nativeFetchBackup with _ | nb <;>
        simp [stopGlobalInterception, stopSpec, horig, hp, hm, hnb]
  · cases dev <;> cases hm : f.hasMarker <;>
      rcases hnb : s.nativeFetchBackup with _ | nb <;>
      simp [stopGlobalInterception, stopSpec, horig, hm, hnb]

theorem tryAbort_aborted (c : Controller) (h : (tryAbort c).throwsOnAbort = false) :
    (tryAbort c).aborted = true := by
  rcases c with ⟨i, ab, th⟩
  cases ab <;> cases th <;> simp_all [tryAbort, abortStep]

theorem tryAbort_of_aborted {c : Controller} (h : c.aborted = true) : tryAbort c = c := by
  simp [tryAbort, abortStep, h]

theorem tryAbort_throws (c : Controller) :
    (tryAbort c).throwsOnAbort = c.throwsOnAbort := by
  rcases c with ⟨i, ab, th⟩
  cases ab <;> cases th <;> simp [tryAbort, abortStep]

theorem abortLoop_eq (l : List Controller) : abortLoop l = .ok (l.map tryAbort) := by
  induction l with
  | nil => rfl
  | cons c rest ih => simp [abortLoop, ih, tryAbort, Except.map]

/-- C4: for any number of intercepted operations and any number of registered
controllers, `abortAll` signals cancellation on every controller in both collections
(every signalled controller whose `abort()` does not itself throw ends up aborted,
and exactly `n + m` controllers are signalled) and then clears both collections, so
`getCount()` returns 0 afterwards. -/
theorem C4_abortAll_clears (s : SysState) :
    getCount (abortAll s).1 = 0 ∧
    (abortAll s).2.length =
      s.controllers.length + s.globalFetchControllers.length ∧
    ∀ c, c ∈ (abortAll s).2 → c.throwsOnAbort = false → c.aborted = true := by
  refine ⟨rfl, by simp [abortAll], ?_⟩
  intro c hc hth
  simp only [abortAll, List.mem_map] at hc
  obtain ⟨c0, _, rfl⟩ := hc
  exact tryAbort_aborted c0 hth

/-- Witness for C4 at a concrete input: one registered and one intercepted
controller; after `abortAll` the count is 0 and the signalled registered controller
is aborted. -/
theorem C4_witness :
    getCount (abortAll
      { SysState.init with
          controllers := [⟨1, false, false⟩],
          globalFetchControllers := [("r", ⟨2, false, false⟩)] }).1 = 0 ∧
    Controller.aborted ⟨1, true, false⟩ = true :=
  ⟨(C4_abortAll_clears _).1,
   (C4_abortAll_clears
      { SysState.init with
          controllers := [⟨1, false, false⟩],
          globalFetchControllers := [("r", ⟨2, false, false⟩)] }).2.2
      ⟨1, true, false⟩ (by decide) (by decide)⟩

/-- C7: `abortAll` never throws outward — rendered in the exception monad with each
`abort()` under its own catch, it always returns `ok` with exactly the state and
signal results of `abortAll` — cancelling an already-cancelled controller is a no-op
rather than an error, and a controller whose `abort()` throws does not prevent the
controllers after it from being signalled and aborted. -/
theorem C7_abortAll_total (s : SysState) (pre post : List Controller)
    (bad c : Controller) :
    abortAllE s = .ok (abortAll s) ∧
    (c.aborted = true → tryAbort c = c) ∧
    (s.controllers = pre ++ bad :: post → bad.throwsOnAbort = true →
      c ∈ post → c.throwsOnAbort = false →
      (tryAbort c).aborted = true ∧ tryAbort c ∈ (abortAll s).2) := by
  refine ⟨?_, fun h => tryAbort_of_aborted h, ?_⟩
  · simp only [abortAllE, abortLoop_eq, abortAll, List.map_append]
    rfl
  · intro hctl _ hmem hth
    have hab : (tryAbort c).aborted = true :=
      tryAbort_aborted c ((tryAbort_throws c).trans hth)
    refine ⟨hab, ?_⟩
    have hc : c ∈ s.controllers := by
      rw [hctl]
      exact List.mem_append_right _ (List.mem_cons_of_mem _ hmem)
    simp only [abortAll]
    exact List.mem_map_of_mem _ (List.mem_append_left _ hc)

/-- Witness for C7 at a concrete input: a controller whose `abort()` throws sits in
front of a healthy one; the loop still returns `ok` and the healthy controller
behind it ends up aborted and signalled. -/
theorem C7_witness :
    abortAllE { SysState.init with controllers := [⟨1, false, true⟩, ⟨2, false, false⟩] } =
      .ok (abortAll { SysState.init with controllers := [⟨1, false, true⟩, ⟨2, false, false⟩] }) ∧
    (tryAbort ⟨2, false, false⟩).aborted = true :=
  ⟨(C7_abortAll_total
      { SysState.init with controllers := [⟨1, false, true⟩, ⟨2, false, false⟩] }
      [] [⟨2, false, false⟩] ⟨1, false, true⟩ ⟨2, false, false⟩).1,
   ((C7_abortAll_total
      { SysState.init with controllers := [⟨1, false, true⟩, ⟨2, false, false⟩] }
      [] [⟨2, false, false⟩] ⟨1, false, true⟩ ⟨2, false, false⟩).2.2
      (by decide) (by decide) (by decide) (by decide)).1⟩

/-- C6: whenever the installed wrapper runs with the bypass flag set, or with the
import-session flag `__bulkImportActive` false, it delegates straight to the saved
original fetch with no tracking: no entry is added to `globalFetchControllers`, no
`AbortController` is created for the call, and the whole registry/window state is
returned unchanged. -/
theorem C6_wrapper_bypass (s : SysState) (rid : String) (cid : Nat)
    (sig : Option Bool) (f : Fetch) (horig : s.originalFetch = some f)
    (h : s.bulkImportDisableInterception = true ∨ s.bulkImportActive = false) :
    wrapperCall s rid cid sig = (s, .ok (f, none)) := by
  by_cases hb : s.bulkImportDisableInterception
  · simp [wrapperCall, hb, horig]
  · rcases h with h | h
    · exact absurd h hb
    · simp [wrapperCall, hb, h, horig]

/-- Witness for C6 at a concrete input: with the session flag down the wrapper
passes the call through to the saved original and changes nothing. -/
theorem C6_witness :
    wrapperCall
        { SysState.init with originalFetch := some .native, windowFetch := .wrapperFn }
        "req" 5 none =
      ({ SysState.init with originalFetch := some .native, windowFetch := .wrapperFn },
        .ok (.native, none)) :=
  C6_wrapper_bypass _ "req" 5 none .native (by decide) (Or.inr (by decide))

theorem registerPromise_controllers (s : SysState) (c : Controller) (p : Nat) :
    (registerPromise s c p).controllers = s.controllers := by
  simp only [registerPromise]
  split <;> simp

theorem register_any (s : SysState) (c : Controller) :
    ((register s c).controllers.any (fun x => x.id = c.id)) = true := by
  simp only [register]
  split
  · split <;> simp_all
  · split <;> simp

/-- C10: `trackedFetch` (with the registry present) registers the caller-supplied or
freshly created controller before the network call is issued, and unregisters it
after the call settles on both outcomes: the response (on success) or the original
error (on failure) is passed through unchanged, and in either case no controller
with that identity remains in the registered set. -/
theorem C10_trackedFetch_balanced (s : SysState) (supplied : Option Controller)
    (cid pid : Nat) (outcome : Except Nat Nat) :
    ((trackedFetchStart s supplied cid pid).1.controllers.any
      (fun x => x.id = (trackedFetchStart s supplied cid pid).2.id)) = true ∧
    (trackedFetch s supplied cid pid outcome).2 = outcome ∧
    ((trackedFetch s supplied cid pid outcome).1.controllers.all
      (fun x => x.id ≠ (trackedFetchStart s supplied cid pid).2.id)) = true := by
  refine ⟨?_, ?_, ?_⟩
  · simp only [trackedFetchStart, registerPromise_controllers]
    exact register_any s _
  · simp only [trackedFetch, trackedFetchSettle]
    cases outcome <;> rfl
  · have hctl : (trackedFetch s supplied cid pid outcome).1.controllers =
        (trackedFetchStart s supplied cid pid).1.controllers.filter
          (fun x => x.id ≠ (trackedFetchStart s supplied cid pid).2.id) := by
      simp only [trackedFetch, trackedFetchSettle]
      cases outcome <;> rfl
    rw [hctl]
    simp only [List.all_eq_true, List.mem_filter]
    intro x hx
    exact hx.2

theorem stop_bulkImportActive (dev : Bool) (s : SysState) :
    (stopGlobalInterception dev s).bulkImportActive = s.bulkImportActive := by
  rcases horig : s.originalFetch with _ | f
  · rcases hp : s.permanentOriginalFetch with _ | p
    · simp [stopGlobalInterception, horig, hp]
    · cases dev <;> cases hm : p.hasMarker <;>
        rcases hnb : s.nativeFetchBackup with _ | nb <;>
        simp [stopGlobalInterception, horig, hp, hm, hnb]
  · cases dev <;> cases hm : f.hasMarker <;>
      rcases hnb : s.nativeFetchBackup with _ | nb <;>
      simp [stopGlobalInterception, horig, hm, hnb]

theorem cleanup_clears_flag (dev : Bool) (s : SysState) :
    (cleanupCoordinator dev s).bulkImportActive = false := by
  simp only [cleanupCoordinator]
  rw [show ((stopGlobalInterception dev (abortAll { s with bulkImportActive := false }).1).bulkImportActive) =
      (abortAll { s with bulkImportActive := false }).1.bulkImportActive from
    stop_bulkImportActive dev _]
  rfl

/-- C1: after every `beginImport` call completes — batch path, sequential fallback
path, empty input, or an injected thrown error — the global `__bulkImportActive`
flag is false: the cleanup coordinator runs on every exit path and clears it, and
neither `abortAll` nor `stopGlobalInterception` raises it again. -/
theorem C1_beginImport_clears_flag (dev : Bool) (s : SysState)
    (records : List ImportedRecord) (batchOk : Bool)
    (fallbackResults : List RecordResult) (injectedError : Option String) :
    (beginImport dev s records batchOk fallbackResults injectedError).1.bulkImportActive =
      false := by
  simp only [beginImport]
  split <;> exact cleanup_clears_flag dev _

theorem maxPositionAux_le (l : List UrlItem) : ∀ acc : Int, acc ≤ maxPositionAux acc l := by
  induction l with
  | nil => intro acc; simp [maxPositionAux]
  | cons u rest ih =>
    intro acc
    simp only [maxPositionAux]
    refine le_trans ?_ (ih _)
    split <;> omega

theorem maxPositionAux_mem (l : List UrlItem) :
    ∀ (acc : Int) (u : UrlItem), u ∈ l → u.position.getD 0 ≤ maxPositionAux acc l := by
  induction l with
  | nil => intro acc u hu; cases hu
  | cons v rest ih =>
    intro acc u hu
    rcases List.mem_cons.mp hu with rfl | hu
    · simp only [maxPositionAux]
      refine le_trans ?_ (maxPositionAux_le rest _)
      split <;> omega
    · simp only [maxPositionAux]
      exact ih _ u hu

theorem sortKey_le_maxPosition {l : List UrlItem} {u : UrlItem} (hu : u ∈ l)
    (hdef : u.position.isSome) : sortKey u ≤ maxPosition l := by
  obtain ⟨p, hp⟩ := Option.isSome_iff_exists.mp hdef
  have h := maxPositionAux_mem l (-1) u hu
  simp only [sortKey, maxPosition, hp, Option.getD_some] at h ⊢
  exact h

theorem mkNewUrls_length (host : String → String) (ids : Nat → String) (now : String)
    (mp : Int) (urls : List BulkImportUrl) : ∀ idx : Nat,
    (mkNewUrls host ids now mp urls idx).length = urls.length := by
  induction urls with
  | nil => intro idx; rfl
  | cons u rest ih => intro idx; simp [mkNewUrls, ih]

theorem mkNewUrls_get (host : String → String) (ids : Nat → String) (now : String)
    (mp : Int) (urls : List BulkImportUrl) : ∀ (idx k : Nat)
    (h : k < (mkNewUrls host ids now mp urls idx).length) (h' : k < urls.length),
    (mkNewUrls host ids now mp urls idx).get ⟨k, h⟩ =
      mkItem host ids now mp (urls.get ⟨k, h'⟩) (idx + k) := by
  induction urls with
  | nil => intro idx k h h'; exact absurd h' (by simp)
  | cons u rest ih =>
    intro idx k h h'
    cases k with
    | zero => rfl
    | succ k =>
      have harg : idx + 1 + k = idx + (k + 1) := by omega
      have hrec := ih (idx + 1) k (by simpa [mkNewUrls] using h) (by simpa using h')
      rw [harg] at hrec
      exact hrec

theorem sortKey_mkItem (host : String → String) (ids : Nat → String) (now : String)
    (mp : Int) (u : BulkImportUrl) (idx : Nat) :
    sortKey (mkItem host ids now mp u idx) = mp + 1 + idx := by
  simp [sortKey, mkItem]

theorem mkNewUrls_key_ge (host : String → String) (ids : Nat → String) (now : String)
    (mp : Int) (urls : List BulkImportUrl) : ∀ (idx : Nat) (u : UrlItem),
    u ∈ mkNewUrls host ids now mp urls idx → mp + 1 + idx ≤ sortKey u := by
  induction urls with
  | nil => intro idx u hu; cases hu
  | cons v rest ih =>
    intro idx u hu
    rcases List.mem_cons.mp hu with rfl | hu
    · rw [sortKey_mkItem]
    · have h := ih (idx + 1) u hu
      have : (mp + 1 + idx : Int) ≤ mp + 1 + (idx + 1) := by omega
      exact le_trans this h

theorem mkNewUrls_pairwise (host : String → String) (ids : Nat → String) (now : String)
    (mp : Int) (urls : List BulkImportUrl) : ∀ idx : Nat,
    (mkNewUrls host ids now mp urls idx).Pairwise posLE := by
  induction urls with
  | nil => intro idx; exact List.Pairwise.nil
  | cons v rest ih =>
    intro idx
    simp only [mkNewUrls, List.pairwise_cons]
    refine ⟨fun u hu => ?_, ih (idx + 1)⟩
    have h1 := mkNewUrls_key_ge host ids now mp rest (idx + 1) u hu
    show sortKey _ ≤ sortKey u
    rw [sortKey_mkItem]
    refine le_trans ?_ h1
    push_cast
    omega

/-- C9 counterexample: the claim — that after a successful bulk-import POST the
imported items appear after all pre-existing items in the stored list — is false
when a pre-existing item has no `position`.  With one stored item whose `position`
is undefined (sort key `999` via `a.position ?? 999`) and one imported record
(`maxPosition` evaluates to `0` via `u.position ?? 0`, so the new item gets position
`1`), the stored list places the imported item FIRST and the pre-existing item
last. -/
theorem C9_counterexample :
    (bulkImportCore (fun _ => "new.example") (fun _ => "n") "t1"
        [⟨"e", "https://old.example", "old", "t0", "t0", false, false, [], "",
          none, none, 0, none⟩]
        [⟨"https://new.example", some "new", none, none, none, none, none, none⟩]).1 =
      [⟨"n", "https://new.example", "new", "t1", "t1", false, false, [], "",
        none, none, 0, some 1⟩] ∧
    (bulkImportCore (fun _ => "new.example") (fun _ => "n") "t1"
        [⟨"e", "https://old.example", "old", "t0", "t0", false, false, [], "",
          none, none, 0, none⟩]
        [⟨"https://new.example", some "new", none, none, none, none, none, none⟩]).2 =
      [⟨"n", "https://new.example", "new", "t1", "t1", false, false, [], "",
        none, none, 0, some 1⟩,
       ⟨"e", "https://old.example", "old", "t0", "t0", false, false, [], "",
        none, none, 0, none⟩] := by
  constructor <;> rfl

/-- C9 (amended): for every successful bulk-import POST, each input record becomes
exactly one new URL item, the `i`-th of which is built from the `i`-th record and
carries position `maxPosition + 1 + i`, where `maxPosition` is the route's fold of
`max` over `position ?? 0` starting at `-1` (so `-1` on an empty list); the stored
list is a permutation of the pre-existing items followed by the new ones (every
pre-existing item is preserved unchanged, with multiplicity); the imported items
appear in input order among themselves; and — provided every pre-existing item has a
defined `position` — every imported item appears after all pre-existing items in
the stored list. -/
theorem C9_bulk_import_positions (host : String → String) (ids : Nat → String)
    (now : String) (currentUrls : List UrlItem) (urls : List BulkImportUrl) :
    (bulkImportCore host ids now currentUrls urls).1.length = urls.length ∧
    (∀ (k : Nat) (hk : k < (bulkImportCore host ids now currentUrls urls).1.length)
        (hk' : k < urls.length),
      (bulkImportCore host ids now currentUrls urls).1.get ⟨k, hk⟩ =
        mkItem host ids now (maxPosition currentUrls) (urls.get ⟨k, hk'⟩) k ∧
      ((bulkImportCore host ids now currentUrls urls).1.get ⟨k, hk⟩).position =
        some (maxPosition currentUrls + 1 + k)) ∧
    (∀ u : UrlItem, (bulkImportCore host ids now currentUrls urls).2.count u =
      (currentUrls ++ (bulkImportCore host ids now currentUrls urls).1).count u) ∧
    List.Sublist (bulkImportCore host ids now currentUrls urls).1
      (bulkImportCore host ids now currentUrls urls).2 ∧
    ((∀ u ∈ currentUrls, u.position.isSome) →
      ∀ (i j : Fin (bulkImportCore host ids now currentUrls urls).2.length),
        i < j →
        (bulkImportCore host ids now currentUrls urls).2.get i ∈
          (bulkImportCore host ids now currentUrls urls).1 →
        (bulkImportCore host ids now currentUrls urls).2.get j ∉ currentUrls) := by
  refine ⟨mkNewUrls_length host ids now (maxPosition currentUrls) urls 0, ?_, ?_, ?_, ?_⟩
  · intro k hk hk'
    have hget := mkNewUrls_get host ids now (maxPosition currentUrls) urls 0 k hk hk'
    rw [Nat.zero_add] at hget
    refine ⟨hget, ?_⟩
    show ((mkNewUrls host ids now (maxPosition currentUrls) urls 0).get ⟨k, hk⟩).position = _
    rw [hget]
    rfl
  · intro u
    exact (List.perm_insertionSort posLE _).count_eq u
  · exact List.sublist_insertionSort
      (mkNewUrls_pairwise host ids now (maxPosition currentUrls) urls 0)
      (List.sublist_append_right currentUrls _)
  · intro hdef i j hij hi hj
    have hsorted : ((bulkImportCore host ids now currentUrls urls).2).Sorted posLE :=
      List.sorted_insertionSort posLE _
    have hrel : posLE ((bulkImportCore host ids now currentUrls urls).2.get i)
        ((bulkImportCore host ids now currentUrls urls).2.get j) :=
      hsorted.rel_get_of_lt hij
    have hki : maxPosition currentUrls + 1 + (0 : Nat) ≤
        sortKey ((bulkImportCore host ids now currentUrls urls).2.get i) :=
      mkNewUrls_key_ge host ids now (maxPosition currentUrls) urls 0 _ hi
    have hkj : sortKey ((bulkImportCore host ids now currentUrls urls).2.get j) ≤
        maxPosition currentUrls :=
      sortKey_le_maxPosition hj (hdef _ hj)
    have : sortKey ((bulkImportCore host ids now currentUrls urls).2.get i) ≤
        sortKey ((bulkImportCore host ids now currentUrls urls).2.get j) := hrel
    simp only [Nat.cast_zero, add_zero] at hki
    omega

/-- Witness for C9 at a concrete input: one pre-existing item at position 5 and one
imported record; the single new item is built from the record with position 6. -/
theorem C9_witness :
    ((bulkImportCore (fun _ => "h") (fun _ => "id") "t"
        [⟨"a", "https://a.example", "a", "t0", "t0", false, false, [], "",
          none, none, 0, some 5⟩]
        [⟨"https://b.example", some "b", none, none, none, none, none, none⟩]).1.get
      ⟨0, by decide⟩).position = some 6 :=
  ((C9_bulk_import_positions (fun _ => "h") (fun _ => "id") "t"
      [⟨"a", "https://a.example", "a", "t0", "t0", false, false, [], "",
        none, none, 0, some 5⟩]
      [⟨"https://b.example", some "b", none, none, none, none, none, none⟩]).2.1
    0 (by decide) (by decide)).2
